import Mathlib

/-!
Verification of the message-formatting core and the batch send loop of a
WhatsApp bulk-sender.

Embedded Python sources:
- src/utils.py: placeholder extraction (re.findall over the template),
  value resolution (a pandas Series row, or row 0 of a DataFrame in the
  preview path), message formatting, and the error taxonomy
  (DfEmptyException, TemplateEmptyOrNoneException, KeyError).
- src/pages/main_page/app_logic.py: handle_send_messages, the
  format-all-rows / login-check / sequential-send handler.

Pandas rows are association lists from field name to the string rendering
of the stored value (the source applies str to every resolved value at
substitution time); Python exceptions are an explicit error sum carried in
Except; the external login check and send primitive of
src/service_whatsapp/main.py are abstracted by boolean outcomes, which is
all the handler observes of them.
-/

namespace WA

/-- A pandas row (pd.Series): field name to value, values already in their
string form. Lookup of a missing field models KeyError as none. -/
abbrev Record := List (String × String)

/-- Row/column access data[var_name] resp. df.loc[0, var_name]: first
binding for the name, none when the name is absent. -/
def fieldValue (name : String) (r : Record) : Option String :=
  List.lookup name r

/-- The two runtime shapes accepted by format_message_base: a single row
(pd.Series) or a whole table (pd.DataFrame, a list of rows). -/
inductive DataSource
  | series (row : Record)
  | frame (rows : List Record)

/-- The isinstance branch of format_message_base: a DataFrame resolves
data.loc[0, var_name] (first row; KeyError when the row or the column is
missing), a Series resolves data[var_name]. -/
def resolveValue (data : DataSource) (name : String) : Option String :=
  match data with
  | .series row => fieldValue name row
  | .frame rows => rows.head?.bind (fieldValue name)

/-- The exceptions raised by the formatting layer of src/utils.py:
DfEmptyException with its message, TemplateEmptyOrNoneException, and the
KeyError escaping a failed field lookup. -/
inductive FormatError
  | dfEmpty (msg : String)
  | templateEmptyOrNone
  | fieldNotFound (name : String)
deriving DecidableEq

deriving instance DecidableEq for Except

/-- The apostrophe character, used by the Python rendering of KeyError. -/
def quoteChar : Char := Char.ofNat 39

/-- The str(e) text interpolated by the handler's message
"Error formatting messages: " followed by the exception text; str of a
KeyError is the quoted key. -/
def FormatError.describe : FormatError → String
  | .dfEmpty m => m
  | .templateEmptyOrNone => "Template empty."
  | .fieldNotFound n => String.singleton quoteChar ++ n ++ String.singleton quoteChar

/-- The opening curly brace character. -/
def lbrace : Char := Char.ofNat 123

/-- The closing curly brace character. -/
def rbrace : Char := Char.ofNat 125

/-- Scanner equivalent to re.findall of one-or-more non-closing-brace
characters captured between literal braces: state none scans for an
opening brace; state some acc accumulates the candidate body (reversed).
A body may contain further opening braces (the regex class only excludes
the closing brace), an empty body is not a match, and an unclosed body at
end of input yields nothing. -/
def findAux : List Char → Option (List Char) → List String
  | [], _ => []
  | c :: rest, none =>
    if c = lbrace then findAux rest (some []) else findAux rest none
  | c :: rest, some acc =>
    if c = rbrace then
      if acc.isEmpty then findAux rest none
      else acc.reverse.asString :: findAux rest none
    else findAux rest (some (c :: acc))

/-- The placeholders list of format_message_base. -/
def extractPlaceholders (s : String) : List String :=
  findAux s.toList none

/-- Python str.strip of a captured body: drop leading and trailing
whitespace (the templates at issue use ASCII whitespace, where Python and
Lean agree on which characters count). -/
def pyStrip (s : String) : String :=
  ((s.toList.dropWhile Char.isWhitespace).reverse.dropWhile Char.isWhitespace).reverse.asString

/-- The variable_names list of format_message_base: every captured body,
stripped, duplicates and order preserved. -/
def varNames (msg : String) : List String :=
  (extractPlaceholders msg).map pyStrip

/-- Whether the pattern occurs at the very start of the string. -/
def matchAt : List Char → List Char → Bool
  | [], _ => true
  | _ :: _, [] => false
  | p :: ps, c :: cs => p == c && matchAt ps cs

/-- Whether the pattern occurs anywhere in the string. -/
def occursIn (pat : List Char) : List Char → Bool
  | [] => matchAt pat []
  | c :: rest => matchAt pat (c :: rest) || occursIn pat rest

/-- Fuel-indexed left-to-right non-overlapping replacement of every
occurrence of pat by rep; with fuel at least the length of the string and
a non-empty pattern the fuel never runs out. -/
def replFuel (pat rep : List Char) : Nat → List Char → List Char
  | _, [] => []
  | 0, s => s
  | fuel + 1, c :: rest =>
    if matchAt pat (c :: rest) then
      rep ++ replFuel pat rep fuel (List.drop pat.length (c :: rest))
    else
      c :: replFuel pat rep fuel rest

/-- Python s.replace(old, new), all occurrences left to right. The
formatter only ever calls it with a brace-wrapped, hence non-empty, old;
Python's divergent empty-pattern behaviour is therefore unreachable. -/
def pyReplace (s old new : String) : String :=
  if old.isEmpty then s
  else (replFuel old.toList new.toList s.toList.length s.toList).asString

/-- The literal search token of the substitution loop: the stripped name
wrapped back in curly braces. -/
def braceWrap (n : String) : String :=
  String.singleton lbrace ++ n ++ String.singleton rbrace

/-- The for-loop of format_message_base: resolve each stripped variable
name in turn and replace its brace-wrapped token in the evolving result
string; a failed lookup is the KeyError of the source. -/
def substitute (data : DataSource) : List String → String → Except FormatError String
  | [], acc => .ok acc
  | n :: ns, acc =>
    match resolveValue data n with
    | none => .error (.fieldNotFound n)
    | some v => substitute data ns (pyReplace acc (braceWrap n) v)

/-- format_message_base of src/utils.py. The original_message parameter is
Option String because the GUI text-field value feeding it can be Python
None, and the source explicitly tests membership in the pair None, "". -/
def format_message_base (original_message : Option String) (data : DataSource) :
    Except FormatError String :=
  match original_message with
  | none => .error .templateEmptyOrNone
  | some msg =>
    if msg = "" then .error .templateEmptyOrNone
    else substitute data (varNames msg) msg

/-- validate_dataframe of src/utils.py: DfEmptyException with message
"No file uploaded." for an absent DataFrame, "File empty." for a present
but empty one. -/
def validate_dataframe (df : Option (List Record)) : Except FormatError Unit :=
  match df with
  | none => .error (.dfEmpty "No file uploaded.")
  | some rows => if rows.isEmpty then .error (.dfEmpty "File empty.") else .ok ()

/-- format_preview_message of src/utils.py: validate the DataFrame, then
format against the whole frame (resolution then reads row 0). The getD
default is only reachable when validation has already succeeded, i.e.
never with an absent frame. -/
def format_preview_message (original_message : Option String) (df : Option (List Record)) :
    Except FormatError String :=
  match validate_dataframe df with
  | .error e => .error e
  | .ok _ => format_message_base original_message (.frame (df.getD []))

/-- format_message of src/utils.py: per-row formatting used by the batch
handler, row first as in the source signature. -/
def format_message (row : Record) (original_message : Option String) :
    Except FormatError String :=
  format_message_base original_message (.series row)

/-- The observable outcome of handle_send_messages: indices of recipients
for which the send primitive was invoked, the final messages_sent counter,
and the two user-visible status fields txf_result and txf_result_op (none
when the handler leaves the field untouched). -/
structure HandlerResult where
  attempted : List Nat
  messagesSent : Nat
  txfResult : Option String
  txfResultOp : Option String
deriving DecidableEq

/-- State of the per-recipient send loop at exit: attempted indices, final
counter, and the failing recipient when the loop aborted. -/
structure LoopResult where
  attempted : List Nat
  sent : Nat
  failed : Option Record
deriving DecidableEq

/-- The recipient's numero field as interpolated in the failure message.
In the source a missing numero would itself raise inside the except
block; every claim here supplies rows that carry the field. -/
def numeroOf (r : Record) : String :=
  (fieldValue "numero" r).getD ""

/-- The for-loop of handle_send_messages over df.iterrows(): attempt each
recipient in order (sendOk gives the outcome of the send primitive at each
positional index), count successes, and abort on the first failure. -/
def sendLoopAux (sendOk : Nat → Bool) : Nat → Nat → List Record → LoopResult
  | _, sent, [] => ⟨[], sent, none⟩
  | i, sent, r :: rs =>
    if sendOk i then
      let res := sendLoopAux sendOk (i + 1) (sent + 1) rs
      ⟨i :: res.attempted, res.sent, res.failed⟩
    else
      ⟨[i], sent, some r⟩

/-- The df.apply step of handle_send_messages: format every row, the first
exception aborting the whole column assignment. -/
def formatAllRows (template : Option String) : List Record → Except FormatError (List String)
  | [] => .ok []
  | row :: rest =>
    match format_message row template with
    | .error e => .error e
    | .ok m =>
      match formatAllRows template rest with
      | .error e => .error e
      | .ok ms => .ok (m :: ms)

/-- The user-visible text of the NotLoggedInException handler. -/
def loginErrorText : String :=
  "Error trying sent messages. Please verify you are logged in at https://web.whatsapp.com"

/-- handle_send_messages of src/pages/main_page/app_logic.py after its UI
validations: format every row; on a formatting exception report it in
txf_result and stop; otherwise run the login check (loginOk false models
check_login_whatsapp raising NotLoggedInException, caught by the outer
except which writes txf_result); otherwise run the send loop, whose
failure branch writes only the failing recipient's numero to
txf_result_op and whose success branch reports the counter there. -/
def handleSendMessages (template : Option String) (rows : List Record)
    (loginOk : Bool) (sendOk : Nat → Bool) : HandlerResult :=
  match formatAllRows template rows with
  | .error e => ⟨[], 0, some ("Error formatting messages: " ++ e.describe), none⟩
  | .ok _ =>
    if loginOk then
      let res := sendLoopAux sendOk 0 0 rows
      match res.failed with
      | some r =>
        ⟨res.attempted, res.sent, none, some ("Error with message to " ++ numeroOf r ++ ".")⟩
      | none =>
        ⟨res.attempted, res.sent, none,
          some ("Messages sent successfully. [" ++ toString res.sent ++ "]")⟩
    else
      ⟨[], 0, some loginErrorText, none⟩

/-- A two-recipient table used as concrete input for the batch-handler
claims. -/
def rowsC2 : List Record := [[("numero", "A")], [("numero", "B")]]

/-! ### Helper lemmas about the formatter -/

/-- A non-empty template skips the emptiness guard and runs the
substitution loop on its stripped placeholder names. -/
theorem format_message_base_some (msg : String) (h : msg ≠ "") (data : DataSource) :
    format_message_base (some msg) data = substitute data (varNames msg) msg := by
  simp [format_message_base, h]

/-- A string without an opening brace yields no placeholder. -/
theorem findAux_none_of_no_lbrace :
    ∀ l : List Char, lbrace ∉ l → findAux l none = []
  | [], _ => rfl
  | c :: rest, h => by
    have hc : ¬c = lbrace := fun hc => h (hc ▸ List.mem_cons_self c rest)
    have hr : lbrace ∉ rest := fun hm => h (List.mem_cons_of_mem c hm)
    simp only [findAux, if_neg hc]
    exact findAux_none_of_no_lbrace rest hr

/-- When every name resolves, the substitution loop is the left fold of
token replacement over the names, in order. -/
theorem substitute_eq_foldl (data : DataSource) :
    ∀ (ns : List String) (acc : String),
      (∀ n ∈ ns, (resolveValue data n).isSome) →
      substitute data ns acc =
        .ok (ns.foldl (fun a n => pyReplace a (braceWrap n) ((resolveValue data n).getD "")) acc)
  | [], _, _ => rfl
  | n :: ns, acc, h => by
    obtain ⟨v, hv⟩ := Option.isSome_iff_exists.mp (h n (List.mem_cons_self n ns))
    rw [List.foldl_cons]
    simp only [substitute, hv]
    rw [substitute_eq_foldl data ns _ (fun m hm => h m (List.mem_cons_of_mem n hm))]
    simp [hv]

/-- A name in the loop that does not resolve forces the whole substitution
to end in a field-not-found error (raised at the first such name). -/
theorem substitute_missing (data : DataSource) :
    ∀ (ns : List String) (acc n : String), n ∈ ns → resolveValue data n = none →
      ∃ m, substitute data ns acc = .error (.fieldNotFound m)
  | [], _, n, hn, _ => absurd hn (List.not_mem_nil n)
  | n' :: ns, acc, n, hn, h => by
    cases hres : resolveValue data n' with
    | none => exact ⟨n', by simp [substitute, hres]⟩
    | some v =>
      rcases List.mem_cons.mp hn with heq | hmem
      · rw [heq] at h
        rw [h] at hres
        exact absurd hres (by simp)
      · obtain ⟨m, hm⟩ :=
          substitute_missing data ns (pyReplace acc (braceWrap n') v) n hmem h
        exact ⟨m, by simp [substitute, hres, hm]⟩

/-- Substituting against a frame reads only its first row. -/
theorem substitute_frame_cons (r : Record) (rs : List Record) :
    ∀ (ns : List String) (acc : String),
      substitute (.frame (r :: rs)) ns acc = substitute (.series r) ns acc
  | [], _ => rfl
  | n :: ns, acc => by
    have hres : resolveValue (.frame (r :: rs)) n = resolveValue (.series r) n := rfl
    simp only [substitute, hres]
    cases resolveValue (.series r) n with
    | none => rfl
    | some v => exact substitute_frame_cons r rs ns _

/-- Formatting against a frame is formatting against its first row. -/
theorem format_message_base_frame_cons (msg : Option String) (r : Record) (rs : List Record) :
    format_message_base msg (.frame (r :: rs)) = format_message_base msg (.series r) := by
  cases msg with
  | none => rfl
  | some m =>
    by_cases h : m = ""
    · simp [format_message_base, h]
    · rw [format_message_base_some m h, format_message_base_some m h,
        substitute_frame_cons]

/-- Preview formatting on a non-empty frame passes validation and reduces
to formatting against the first row. -/
theorem format_preview_message_cons (msg : Option String) (r : Record) (rs : List Record) :
    format_preview_message msg (some (r :: rs)) = format_message_base msg (.series r) :=
  format_message_base_frame_cons msg r rs

/-- A pattern that occurs nowhere in the string is replaced vacuously. -/
theorem replFuel_of_not_occurs (pat rep : List Char) :
    ∀ (fuel : Nat) (s : List Char), occursIn pat s = false → replFuel pat rep fuel s = s
  | _, [], _ => by simp [replFuel]
  | 0, _ :: _, _ => by simp [replFuel]
  | fuel + 1, c :: rest, h => by
    rw [occursIn, Bool.or_eq_false_iff] at h
    simp [replFuel, replFuel_of_not_occurs pat rep fuel rest h.2, h.1]

/-- Python replace with a pattern that does not occur returns the string
unchanged, whatever the replacement text. -/
theorem pyReplace_of_not_occurs (s old new : String)
    (h : occursIn old.toList s.toList = false) : pyReplace s old new = s := by
  unfold pyReplace
  by_cases he : old.isEmpty
  · simp [he]
  · rw [if_neg he, replFuel_of_not_occurs old.toList new.toList _ _ h,
      String.asString_toList]

/-! ### Helper lemmas about the batch handler -/

/-- When the send primitive succeeds on the first j recipients (counting
from the loop's starting index) and fails on the next, the loop attempts
exactly those j + 1 recipients, adds j to the counter, and exits carrying
the failing recipient. -/
theorem sendLoopAux_fails_at (sendOk : Nat → Bool) :
    ∀ (rs : List Record) (j i s : Nat) (hj : j < rs.length),
      (∀ d, d < j → sendOk (i + d) = true) → sendOk (i + j) = false →
      sendLoopAux sendOk i s rs =
        ⟨(List.range (j + 1)).map (i + ·), s + j, some (rs.get ⟨j, hj⟩)⟩
  | [], j, _, _, hj, _, _ => absurd hj (by simp)
  | r :: rs, 0, i, s, _, _, hfail => by
    have hf : sendOk i = false := by simpa using hfail
    simp [sendLoopAux, hf, List.range_succ]
  | r :: rs, j + 1, i, s, hj, hok, hfail => by
    have h0 : sendOk i = true := by simpa using hok 0 (Nat.succ_pos j)
    have hj' : j < rs.length := by simpa using hj
    have hrec := sendLoopAux_fails_at sendOk rs j (i + 1) (s + 1) hj'
      (fun d hd => by
        have := hok (d + 1) (by omega)
        rw [← this]
        congr 1
        omega)
      (by rw [← hfail]; congr 1; omega)
    simp only [sendLoopAux, if_pos h0, hrec]
    have hlist : (List.range (j + 1 + 1)).map (i + ·) =
        i :: (List.range (j + 1)).map ((i + 1) + ·) := by
      rw [List.range_succ_eq_map, List.map_cons, List.map_map]
      refine congrArg₂ _ (by omega) (List.map_congr_left fun a _ => ?_)
      simp only [Function.comp_apply]
      omega
    simp [hlist]
    omega

/-- A row that fails to format makes the whole column assignment fail
(with the first failing row's error). -/
theorem formatAllRows_error_of_mem (template : Option String) :
    ∀ (rows : List Record) (row : Record) (e : FormatError), row ∈ rows →
      format_message row template = .error e →
      ∃ e2, formatAllRows template rows = .error e2
  | [], row, _, hm, _ => absurd hm (List.not_mem_nil row)
  | r :: rs, row, e, hm, he => by
    cases hfr : format_message r template with
    | error e' => exact ⟨e', by simp [formatAllRows, hfr]⟩
    | ok m =>
      rcases List.mem_cons.mp hm with heq | hmem
      · rw [heq] at he
        rw [he] at hfr
        exact absurd hfr (by simp)
      · obtain ⟨e2, h2⟩ := formatAllRows_error_of_mem template rs row e hmem he
        exact ⟨e2, by simp [formatAllRows, hfr, h2]⟩

/-! ### Claim theorems -/

/-- C1 (amended): format_message_base raises the empty-template error for
an absent or empty template regardless of data source, and the preview
path raises it too once the DataFrame validation has passed; but in the
preview path the DataFrame is validated first, so with an absent or empty
DataFrame the DfEmptyException is raised instead of the template error. -/
theorem c1_amended_df_check_precedes_template_check :
    (∀ data : DataSource, format_message_base none data = .error .templateEmptyOrNone) ∧
    (∀ data : DataSource, format_message_base (some "") data = .error .templateEmptyOrNone) ∧
    (∀ (r : Record) (rs : List Record),
      format_preview_message (some "") (some (r :: rs)) = .error .templateEmptyOrNone) ∧
    (∀ (r : Record) (rs : List Record),
      format_preview_message none (some (r :: rs)) = .error .templateEmptyOrNone) ∧
    format_preview_message (some "") none = .error (.dfEmpty "No file uploaded.") ∧
    format_preview_message none none = .error (.dfEmpty "No file uploaded.") ∧
    format_preview_message (some "") (some []) = .error (.dfEmpty "File empty.") := by
  refine ⟨fun _ => rfl, fun data => ?_, fun r rs => ?_, fun r rs => ?_, rfl, rfl, rfl⟩
  · simp [format_message_base]
  · simp [format_preview_message, validate_dataframe, format_message_base]
  · rfl

/-- C1 counterexample: in the preview path with an empty template and an
absent DataFrame, the error raised is not the empty-template error (it is
the DfEmptyException of the DataFrame validation, which runs first). -/
theorem c1_counterexample :
    format_preview_message (some "") none ≠ .error FormatError.templateEmptyOrNone := by
  decide

/-- C1 witness: the amended statement evaluated at concrete inputs. -/
theorem c1_witness :
    format_message_base none (.series [("a", "1")]) = .error .templateEmptyOrNone ∧
    format_preview_message (some "") (some [[("a", "1")]]) = .error .templateEmptyOrNone :=
  ⟨c1_amended_df_check_precedes_template_check.1 (.series [("a", "1")]),
    c1_amended_df_check_precedes_template_check.2.2.1 [("a", "1")] []⟩

/-- C2 (amended): when the send primitive succeeds on the first recipients
and fails on the recipient at zero-based position j (the k-th recipient,
k = j + 1), the loop attempts exactly positions 0..j and no later
recipient, and the internal messages_sent counter is exactly j = k - 1;
but the user-visible result is only the failure text naming the failing
recipient's numero — the sent count is not part of it (counts are shown
only by the all-success message). -/
theorem c2_amended_abort_and_count (template : Option String) (rows : List Record)
    (sendOk : Nat → Bool) (msgs : List String) (j : Nat) (hj : j < rows.length)
    (hfmt : formatAllRows template rows = .ok msgs)
    (hok : ∀ d, d < j → sendOk d = true) (hfail : sendOk j = false) :
    handleSendMessages template rows true sendOk =
      ⟨List.range (j + 1), j, none,
        some ("Error with message to " ++ numeroOf (rows.get ⟨j, hj⟩) ++ ".")⟩ := by
  have hloop := sendLoopAux_fails_at sendOk rows j 0 0 hj
    (fun d hd => by simpa using hok d hd) (by simpa using hfail)
  have hlist : (List.range (j + 1)).map (0 + ·) = List.range (j + 1) :=
    (List.map_congr_left fun a _ => by simp).trans (List.map_id _)
  simp [handleSendMessages, hfmt, hloop, hlist]

/-- C2 counterexample: with two recipients and a send primitive failing at
the first (k = 1), the handler's only user-visible text is the failure
message naming the recipient; the digit string of the claimed count
k - 1 = 0 occurs nowhere in it, so no sent count is reported. -/
theorem c2_counterexample :
    (handleSendMessages (some "hi") rowsC2 true (fun _ => false)).txfResultOp =
        some "Error with message to A." ∧
    (handleSendMessages (some "hi") rowsC2 true (fun _ => false)).txfResult = none ∧
    (handleSendMessages (some "hi") rowsC2 true (fun _ => false)).messagesSent = 0 ∧
    occursIn (toString (0 : Nat)).toList "Error with message to A.".toList = false := by
  decide

/-- C2 witness: the amended statement evaluated at two recipients with the
send primitive failing at the second. -/
theorem c2_witness :
    handleSendMessages (some "hi") rowsC2 true (fun i => decide (i < 1)) =
      ⟨List.range 2, 1, none,
        some ("Error with message to " ++ numeroOf (rowsC2.get ⟨1, by decide⟩) ++ ".")⟩ :=
  c2_amended_abort_and_count (some "hi") rowsC2 (fun i => decide (i < 1)) ["hi", "hi"] 1
    (by decide) (by decide) (fun d hd => decide_eq_true hd) (by decide)

/-- C3: for a non-empty template whose stripped placeholder names all
resolve in the row, formatting is the left fold of in-place token
replacement over the names in extraction order on the evolving result
string; concretely, a resolved value that textually contains a later
token is itself substituted by the later pass. -/
theorem c3_evolving_replacement :
    (∀ (msg : String) (r : Record), msg ≠ "" →
      (∀ n ∈ varNames msg, (resolveValue (.series r) n).isSome) →
      format_message_base (some msg) (.series r) =
        .ok ((varNames msg).foldl
          (fun acc n => pyReplace acc (braceWrap n) ((resolveValue (.series r) n).getD ""))
          msg)) ∧
    format_message_base (some "\x7ba\x7d \x7bb\x7d")
      (.series [("a", "\x7bb\x7d"), ("b", "2")]) = .ok "2 2" := by
  constructor
  · intro msg r hmsg hres
    rw [format_message_base_some msg hmsg]
    exact substitute_eq_foldl (.series r) (varNames msg) msg hres
  · decide

/-- C3 witness: the fold description evaluated at a concrete template and
row. -/
theorem c3_witness :
    format_message_base (some "\x7bx\x7d!") (.series [("x", "7")]) =
      .ok ((varNames "\x7bx\x7d!").foldl
        (fun acc n =>
          pyReplace acc (braceWrap n) ((resolveValue (.series [("x", "7")]) n).getD ""))
        "\x7bx\x7d!") :=
  c3_evolving_replacement.1 "\x7bx\x7d!" [("x", "7")] (by decide) (by decide)

/-- C4: a placeholder written with interior whitespace is looked up under
its stripped name (whatever value the record carries for it, and raising
field-not-found when the stripped name is absent), yet the replacement
targets the whitespace-free token, so the original whitespace-carrying
text survives unreplaced in the returned message. -/
theorem c4_whitespace_placeholder :
    (∀ (r : Record) (v : String), fieldValue "name" r = some v →
      format_message_base (some "Hi \x7b name \x7d.") (.series r) =
        .ok "Hi \x7b name \x7d.") ∧
    format_message_base (some "\x7b name \x7d") (.series []) =
      .error (.fieldNotFound "name") := by
  constructor
  · intro r v h
    rw [format_message_base_some _ (by decide)]
    have hv : varNames "Hi \x7b name \x7d." = ["name"] := by decide
    rw [hv]
    simp only [substitute, resolveValue, h]
    rw [pyReplace_of_not_occurs _ _ _ (by decide)]
  · decide

/-- C4 witness: the general part evaluated at a record binding the
stripped name. -/
theorem c4_witness :
    format_message_base (some "Hi \x7b name \x7d.") (.series [("name", "Ana")]) =
      .ok "Hi \x7b name \x7d." :=
  c4_whitespace_placeholder.1 [("name", "Ana")] "Ana" (by decide)

/-- C5: the preview of a non-empty template over a non-empty DataFrame
depends only on the first row — two tables agreeing on their first row
preview identically, and the preview equals formatting against that first
row as a record. -/
theorem c5_preview_uses_first_row (msg : String) (r : Record) (rs1 rs2 : List Record)
    (_hmsg : msg ≠ "") :
    format_preview_message (some msg) (some (r :: rs1)) =
        format_preview_message (some msg) (some (r :: rs2)) ∧
    format_preview_message (some msg) (some (r :: rs1)) =
        format_message_base (some msg) (.series r) :=
  ⟨(format_preview_message_cons _ r rs1).trans (format_preview_message_cons _ r rs2).symm,
    format_preview_message_cons _ r rs1⟩

/-- C5 witness: two concrete tables agreeing on the first row preview
identically. -/
theorem c5_witness :
    format_preview_message (some "hey \x7bn\x7d") (some [[("n", "1")], [("n", "2")]]) =
        format_preview_message (some "hey \x7bn\x7d") (some [[("n", "1")]]) ∧
    format_preview_message (some "hey \x7bn\x7d") (some [[("n", "1")], [("n", "2")]]) =
        format_message_base (some "hey \x7bn\x7d") (.series [("n", "1")]) :=
  c5_preview_uses_first_row "hey \x7bn\x7d" [("n", "1")] [[("n", "2")]] [] (by decide)

/-- C6: a non-empty template with a stripped placeholder name that does
not resolve in the data source makes formatting fail with a
field-not-found error (the KeyError of the source) — it cannot return a
message at all. -/
theorem c6_missing_field_error (msg : String) (data : DataSource) (name : String)
    (hmsg : msg ≠ "") (hmem : name ∈ varNames msg)
    (hmiss : resolveValue data name = none) :
    ∃ m, format_message_base (some msg) data = .error (.fieldNotFound m) := by
  rw [format_message_base_some msg hmsg]
  exact substitute_missing data (varNames msg) msg name hmem hmiss

/-- C6 witness: a concrete template referencing an absent field fails with
the field-not-found error. -/
theorem c6_witness :
    ∃ m, format_message_base (some "\x7bzip\x7d") (.series [("a", "1")]) =
      .error (.fieldNotFound m) :=
  c6_missing_field_error "\x7bzip\x7d" (.series [("a", "1")]) "zip" (by decide) (by decide)
    (by decide)

/-- C7: extraction on the duplicate-bearing template yields the names in
order of first character position with duplicates preserved, and a
template containing no opening brace (hence no placeholder) extracts to
the empty sequence. -/
theorem c7_extraction_order :
    extractPlaceholders "\x7ba\x7d-\x7bb\x7d-\x7ba\x7d" = ["a", "b", "a"] ∧
    ∀ msg : String, lbrace ∉ msg.toList → extractPlaceholders msg = [] :=
  ⟨by decide, fun msg h => findAux_none_of_no_lbrace msg.toList h⟩

/-- C7 witness: the no-placeholder part evaluated at a concrete
brace-free template. -/
theorem c7_witness : extractPlaceholders "no tokens here" = [] :=
  c7_extraction_order.2 "no tokens here" (by decide)

/-- C9: a non-empty template from which no placeholder is extracted is
returned unchanged, for every data source in the base path and for every
validated (non-empty) table in the preview path. -/
theorem c9_no_tokens_identity :
    (∀ (msg : String) (data : DataSource), msg ≠ "" → extractPlaceholders msg = [] →
      format_message_base (some msg) data = .ok msg) ∧
    (∀ (msg : String) (r : Record) (rs : List Record), msg ≠ "" →
      extractPlaceholders msg = [] →
      format_preview_message (some msg) (some (r :: rs)) = .ok msg) := by
  have base : ∀ (msg : String) (data : DataSource), msg ≠ "" →
      extractPlaceholders msg = [] → format_message_base (some msg) data = .ok msg := by
    intro msg data hmsg hext
    rw [format_message_base_some msg hmsg]
    have hv : varNames msg = [] := by simp [varNames, hext]
    rw [hv]
    rfl
  exact ⟨base, fun msg r rs hmsg hext =>
    (format_preview_message_cons (some msg) r rs).trans (base msg (.series r) hmsg hext)⟩

/-- C9 witness: a token-free template concretely unchanged through both
paths. -/
theorem c9_witness :
    format_message_base (some "hello") (.series []) = .ok "hello" ∧
    format_preview_message (some "hello") (some [[("a", "1")]]) = .ok "hello" :=
  ⟨c9_no_tokens_identity.1 "hello" (.series []) (by decide) (by decide),
    c9_no_tokens_identity.2 "hello" [("a", "1")] [] (by decide) (by decide)⟩

/-- C8: when every row formats and the login check reports not logged in,
the handler attempts no send at all, the counter stays zero, and the
user-visible status is the log-in instruction. -/
theorem c8_login_checked_before_send (template : Option String) (rows : List Record)
    (sendOk : Nat → Bool) (msgs : List String)
    (hfmt : formatAllRows template rows = .ok msgs) :
    handleSendMessages template rows false sendOk = ⟨[], 0, some loginErrorText, none⟩ := by
  simp [handleSendMessages, hfmt]

/-- C8 witness: the not-logged-in abort evaluated at a concrete table. -/
theorem c8_witness :
    handleSendMessages (some "hi") rowsC2 false (fun _ => true) =
      ⟨[], 0, some loginErrorText, none⟩ :=
  c8_login_checked_before_send (some "hi") rowsC2 (fun _ => true) ["hi", "hi"] (by decide)

/-- C10: the whole table is formatted before any send: if any row fails to
format, the handler reports the formatting error in txf_result and
returns having attempted no send and sent zero messages, whatever the
login state and send outcomes — rows that would have formatted are not
sent either. -/
theorem c10_format_all_before_any_send (template : Option String) (rows : List Record)
    (row : Record) (e : FormatError) (loginOk : Bool) (sendOk : Nat → Bool)
    (hm : row ∈ rows) (he : format_message row template = .error e) :
    ∃ e2, handleSendMessages template rows loginOk sendOk =
      ⟨[], 0, some ("Error formatting messages: " ++ FormatError.describe e2), none⟩ := by
  obtain ⟨e2, h2⟩ := formatAllRows_error_of_mem template rows row e hm he
  exact ⟨e2, by simp [handleSendMessages, h2]⟩

/-- C10 witness: a table whose only row lacks the template's field causes
the zero-send formatting-error abort. -/
theorem c10_witness :
    ∃ e2, handleSendMessages (some "\x7bx\x7d") [[("numero", "A")]] true (fun _ => true) =
      ⟨[], 0, some ("Error formatting messages: " ++ FormatError.describe e2), none⟩ :=
  c10_format_all_before_any_send (some "\x7bx\x7d") [[("numero", "A")]] [("numero", "A")]
    (.fieldNotFound "x") true (fun _ => true) (by decide) (by decide)

end WA
